import Mathlib

/-!
Verification of the partial-information DQN traffic-signal environment
(`EnvTest.py`): a shallow embedding of the module constants, the phase
controller (`set_yellow_red`, `set_green`), the observation encoder
(`get_state`), and the episode orchestration (`reset`, `step`).

Modelling conventions:
* Python strings are Lean `String`s; where the source splits, searches or
  parses strings (`split('_')`, `in`, `int(...)`), we work on the underlying
  `List Char` with structural-recursive functions whose semantics match the
  Python operations, so that everything reduces in the kernel.
* Real-valued telemetry (distances, speeds, time losses) is modelled over
  `ℤ`.  Every claim about these quantities concerns only order comparisons
  with integer thresholds (0, 350) and the floor-division bucketing
  `int(d / 7)`, which integer arithmetic represents exactly (for `d > 0`,
  `int(d / 7) = d / 7` with floor division); exact IEEE float behaviour is
  out of scope.
* Python exceptions (`ValueError` from unpacking `split`, `NameError` from
  an unbound loop variable, `KeyError` from a missing dict key,
  `IndexError` from numpy indexing) are modelled with `Except String`.
* The numpy arrays `img_state` and `queue_state` are modelled by the list
  of assignments performed on them (`GridWrite`), with last-write-wins
  lookup, and by a lookup function over the 16 fixed lane names.
* Interaction with the `traci` simulator is made explicit: `reset` and
  `step` return the list of simulator commands (`SimCmd`) they issue, and
  take as input a `Snapshot` describing what the simulator reports when
  `get_state` queries it.
-/

namespace SumoEnv

/-- EnvTest.py lines 10-18: module-level constants. -/
def cell_length : ℕ := 7

def detection_length : ℕ := 350

def n_channels : ℕ := 2

def grid_width : ℕ := 16

def grid_height : ℕ := detection_length / cell_length

def car_occupancy : ℤ := 1

def bus_occupancy : ℤ := 1

def min_left_green_time : ℕ := 5

def min_through_green_time : ℕ := 12

/-- EnvTest.py lines 20-25: the `edges` dict, as its `.values()` list
(insertion order): approach base offset and incoming edge id. -/
def edges : List (ℕ × String) := [(0, "-E2"), (4, "-E3"), (8, "E0"), (12, "E1")]

/-- EnvTest.py lines 27-36: the `action_state_map` dict as its `.items()`
list in insertion order (Python dicts iterate in insertion order). -/
def action_state_list : List (ℤ × String) :=
  [(0, "grrrgrrGGgrrrgrrGG"),
   (1, "grrrgrrrrgrrrgGGGG"),
   (2, "grrrgGGrrgrrrgGGrr"),
   (3, "grrrgGGGGgrrrgrrrr"),
   (4, "grrGgrrrrgrrGgrrrr"),
   (5, "grrrgrrrrgGGGgrrrr"),
   (6, "gGGrgrrrrgGGrgrrrr"),
   (7, "gGGGgrrrrgrrrgrrrr")]

/-- Keyed lookup in `action_state_map`; `none` models a `KeyError`. -/
def action_state_map (a : ℤ) : Option String :=
  (action_state_list.find? (fun kv => kv.1 == a)).map Prod.snd

/-- EnvTest.py lines 78-79: `self.yellow_time = 3`. -/
def yellow_time : ℕ := 3

/-- EnvTest.py lines 78-79: `self.red_time = 2`. -/
def red_time : ℕ := 2

/-- EnvTest.py lines 291-297: the yellow-phase loop body of
`set_yellow_red`, over the two 18-character phase strings (as char lists):
a position becomes `Y` exactly when the old phase has a protected green
`G` there and the new phase differs; every other position copies the old
phase's character. -/
def yellow_chars : List Char → List Char → List Char
  | o :: os, n :: ns => (if o = 'G' ∧ o ≠ n then 'Y' else o) :: yellow_chars os ns
  | _, _ => []

/-- EnvTest.py lines 301-305: the red-phase loop body of `set_yellow_red`:
every `Y` of the yellow phase becomes `r`, all other characters copy. -/
def red_chars (ys : List Char) : List Char :=
  ys.map fun c => if c = 'Y' then 'r' else c

/-- Commands issued to the external simulator (`traci`). -/
inductive SimCmd where
  | setState (s : String)
  | advance (n : ℕ)
  | close
deriving DecidableEq

/-- EnvTest.py lines 286-308: `set_yellow_red(action, last_action)`.
Looks up both phase strings (a missing key is a `KeyError`, raised before
any simulator interaction), then applies the yellow phase for
`yellow_time` ticks and the derived red phase for `red_time` ticks.
Returns the issued simulator commands and the number of ticks advanced. -/
def set_yellow_red (action last_action : ℤ) : Except String (List SimCmd × ℕ) :=
  match action_state_map action with
  | none => Except.error "KeyError: action_state_map"
  | some action_state =>
    match action_state_map last_action with
    | none => Except.error "KeyError: action_state_map"
    | some old_action_state =>
      let yellow_state := String.mk (yellow_chars old_action_state.data action_state.data)
      let red_state := String.mk (red_chars yellow_state.data)
      Except.ok ([SimCmd.setState yellow_state, SimCmd.advance yellow_time,
                  SimCmd.setState red_state, SimCmd.advance red_time],
                 yellow_time + red_time)

/-- EnvTest.py lines 275-282: `set_green(action, min_green_time)`: apply
the action's phase string and advance the simulator by exactly
`min_green_time` ticks. -/
def set_green (action : ℤ) (min_green_time : ℕ) : Except String (List SimCmd × ℕ) :=
  match action_state_map action with
  | none => Except.error "KeyError: action_state_map"
  | some green_state =>
    Except.ok ([SimCmd.setState green_state, SimCmd.advance min_green_time], min_green_time)

/-- Python single-character `str.split`, on char lists: `''.split('_') = ['']`,
`'E0_3'.split('_') = ['E0', '3']`, `'a__b'.split('_') = ['a', '', 'b']`. -/
def split_on_char (sep : Char) : List Char → List (List Char)
  | [] => [[]]
  | c :: t =>
    if c = sep then [] :: split_on_char sep t
    else
      match split_on_char sep t with
      | h :: r => (c :: h) :: r
      | [] => [[c]]

/-- Python substring test `needle in hay` on char lists (an empty needle is
contained in everything). -/
def contains_sub (needle hay : List Char) : Bool :=
  match hay with
  | [] => needle.isEmpty
  | _ :: t => needle.isPrefixOf hay || contains_sub needle t

/-- Digit-string accumulator for `parse_int?`. -/
def parse_digits_aux (acc : ℕ) : List Char → Option ℕ
  | [] => some acc
  | c :: t => if c.isDigit then parse_digits_aux (acc * 10 + (c.toNat - 48)) t else none

/-- Python `int(s)` on char lists: optional sign followed by a nonempty
digit string; anything else raises `ValueError`, modelled as `none`. -/
def parse_int? (s : List Char) : Option ℤ :=
  match s with
  | [] => none
  | '-' :: t =>
    match t with
    | [] => none
    | _ => (parse_digits_aux 0 t).map (fun m => -(m : ℤ))
  | '+' :: t =>
    match t with
    | [] => none
    | _ => (parse_digits_aux 0 t).map (fun m => (m : ℤ))
  | _ => (parse_digits_aux 0 s).map (fun m => (m : ℤ))

/-- One vehicle's subscription result (EnvTest.py lines 163-179): vehicle
type, `VAR_NEXT_TLS` distance when a traffic light is ahead, lane id,
speed and accumulated time loss.  Real-valued fields are modelled over `ℤ`. -/
structure Vehicle where
  v_type : String
  next_tls : Option ℤ
  lane_id : String
  speed : ℤ
  timeloss : ℤ
deriving DecidableEq

/-- What the simulator reports when `get_state` queries it: the vehicle
subscription results in iteration order, and per-lane halting counts
(`traci.lane.getLastStepHaltingNumber`). -/
structure Snapshot where
  vehicles : List Vehicle
  halting : String → ℕ

/-- One assignment `img_state[:, height_index, width_index] = (occ, spd)`
performed on the observation grid (EnvTest.py line 201). -/
structure GridWrite where
  h_idx : ℕ
  w_idx : ℕ
  occ : ℤ
  spd : ℤ
deriving DecidableEq

/-- The mutable state of the vehicle loop in `get_state`: the loop
variables `ln_id, ln_idx` (which Python leaves bound to the *previous*
vehicle's values when the current lane id is empty, and unbound before the
first assignment — modelled as `Option`), the grid writes performed so
far, and the running `tot_person_delay`. -/
structure LoopState where
  lane : Option (List Char × List Char)
  writes : List GridWrite
  tot_person_delay : ℤ
deriving DecidableEq

def initLoopState : LoopState := ⟨none, [], 0⟩

/-- EnvTest.py lines 171-174: distance to the next traffic light;
a vehicle with no signal ahead is treated as `-1` (already crossing). -/
def tls_dist (v : Vehicle) : ℤ :=
  match v.next_tls with
  | some d => d
  | none => -1

/-- EnvTest.py lines 187-192: occupancy weight by vehicle class.
`carLike` is `"car"` in the all-vehicle branch and `"cv"` in the
cv-only branch. -/
def veh_occupancy (carLike : String) (v : Vehicle) : ℤ :=
  if v.v_type = carLike then car_occupancy else bus_occupancy

/-- EnvTest.py lines 181-193: the per-vehicle weighted delay summand:
time loss when the vehicle has not crossed the stop line, else 0, times
the occupancy weight. -/
def veh_person_delay (carLike : String) (v : Vehicle) : ℤ :=
  (if 0 < tls_dist v then v.timeloss else 0) * veh_occupancy carLike v

/-- EnvTest.py lines 198-201: the inner `for edge in edges.values()` loop.
For each edge whose id is a substring of the lane id, `int(ln_idx)` is
computed (`ValueError` when it is not numeric) and
`img_state[:, height_index, int(ln_idx) + edge[0]]` is assigned; numpy
accepts indices in `[-16, 16)`, wrapping negatives, and raises
`IndexError` otherwise.  The loop does not break, so several matching
edges produce several writes. -/
def place_on_edges : List (ℕ × String) → ℕ → List Char → List Char → ℤ → ℤ →
    List GridWrite → Except String (List GridWrite)
  | [], _, _, _, _, _, ws => Except.ok ws
  | e :: es, hi, ln_id, ln_idx, occ, spd, ws =>
    if contains_sub e.2.data ln_id then
      match parse_int? ln_idx with
      | none => Except.error "ValueError: invalid literal for int"
      | some k =>
        let w : ℤ := k + (e.1 : ℤ)
        if 0 ≤ w ∧ w < (grid_width : ℤ) then
          place_on_edges es hi ln_id ln_idx occ spd (ws ++ [⟨hi, w.toNat, occ, spd⟩])
        else if -(grid_width : ℤ) ≤ w then
          place_on_edges es hi ln_id ln_idx occ spd (ws ++ [⟨hi, (w + grid_width).toNat, occ, spd⟩])
        else Except.error "IndexError: grid column"
    else place_on_edges es hi ln_id ln_idx occ spd ws

/-- EnvTest.py lines 176-177: `if p[x][tc.VAR_LANE_ID]: ln_id, ln_idx =
p[x][tc.VAR_LANE_ID].split('_')`.  An empty (falsy) lane id skips the
assignment, keeping the previous loop values; a nonempty lane id that does
not split into exactly two parts raises `ValueError` from the tuple
unpacking. -/
def parse_lane (prev : Option (List Char × List Char)) (lane_id : String) :
    Except String (Option (List Char × List Char)) :=
  if lane_id ≠ "" then
    match split_on_char '_' lane_id.data with
    | [ln_id, ln_idx] => Except.ok (some (ln_id, ln_idx))
    | _ => Except.error "ValueError: not enough values to unpack"
  else Except.ok prev

/-- EnvTest.py lines 168-201 (all-vehicle branch) and 204-235 (cv-only
branch — identical code with `carLike = "cv"`): process one vehicle.
Order follows the source: distance, then the lane split (an unpacking
`ValueError` aborts the whole call here, before the delay is accrued; an
empty lane id keeps the previous loop values), then speed, delay,
occupancy and the running delay total, then the grid placement guarded by
`0 < ps_tls < detection_length` (using the possibly stale lane variables;
unbound ones raise `NameError`). -/
def vehicle_core (carLike : String) (s : LoopState) (v : Vehicle) : Except String LoopState :=
  let ps_tls := tls_dist v
  match parse_lane s.lane v.lane_id with
  | Except.error e => Except.error e
  | Except.ok lane1 =>
    let spd := v.speed
    let tot1 := s.tot_person_delay + veh_person_delay carLike v
    if 0 < ps_tls ∧ ps_tls < (detection_length : ℤ) then
      let height_index : ℕ := (ps_tls / (cell_length : ℤ)).toNat
      match lane1 with
      | none => Except.error "NameError: ln_id is not defined"
      | some (ln_id, ln_idx) =>
        match place_on_edges edges height_index ln_id ln_idx (veh_occupancy carLike v) spd s.writes with
        | Except.error e => Except.error e
        | Except.ok ws => Except.ok ⟨lane1, ws, tot1⟩
    else Except.ok ⟨lane1, s.writes, tot1⟩

/-- EnvTest.py lines 167-235: branch selection on `self.cv_det`; in the
cv-only branch, vehicles that are neither `cv` nor `bus` are ignored. -/
def process_vehicle (cv_det : Bool) (s : LoopState) (v : Vehicle) : Except String LoopState :=
  if cv_det = false then vehicle_core "car" s v
  else if v.v_type = "cv" ∨ v.v_type = "bus" then vehicle_core "cv" s v
  else Except.ok s

/-- EnvTest.py lines 237-243: the queue loop enumerates, for each edge and
lane index `0..3`, the width index `i + edge[0]` and lane name
`edge[1] + "_" + str(i)`. -/
def queue_pairs : List (ℕ × String) :=
  (edges.map (fun e => (List.range 4).map (fun i => (i + e.1, e.2 ++ "_" ++ toString i)))).flatten

/-- The `(width_index, halting count)` assignments made to `queue_state`. -/
def queue_assignments (halting : String → ℕ) : List (ℕ × ℕ) :=
  queue_pairs.map (fun p => (p.1, halting p.2))

/-- `queue_state` as a lookup function (zeros where never assigned;
last assignment wins, though each index is assigned exactly once). -/
def queue_fun (halting : String → ℕ) (w : ℕ) : ℕ :=
  (((queue_assignments halting).reverse.find? (fun q => q.1 == w)).map Prod.snd).getD 0

/-- EnvTest.py lines 241-243: `tot_queue_veh`, the sum of all halting
counts. -/
def tot_queue_veh (halting : String → ℕ) : ℕ :=
  ((queue_assignments halting).map Prod.snd).sum

/-- The data `get_state` computes before choosing the output format:
grid writes, `tot_person_delay`, `queue_state` and `tot_queue_veh`. -/
structure CoreResult where
  writes : List GridWrite
  tot_person_delay : ℤ
  queue : ℕ → ℕ
  tot_queue : ℕ

/-- EnvTest.py lines 157-243: the computational part of `get_state`. -/
def get_state_core (cv_det : Bool) (snap : Snapshot) : Except String CoreResult :=
  match snap.vehicles.foldlM (process_vehicle cv_det) initLoopState with
  | Except.error e => Except.error e
  | Except.ok s =>
    Except.ok ⟨s.writes, s.tot_person_delay, queue_fun snap.halting, tot_queue_veh snap.halting⟩

/-- `astype(np.uint8)` on the nonnegative values the encoder produces:
truncate and reduce mod 256. -/
def uint8 (z : ℤ) : ℕ := z.toNat % 256

/-- Last-write-wins lookup into the modelled `img_state` array:
channel 0 holds the occupancy weight, channel 1 the speed. -/
def getCell (ws : List GridWrite) (c h w : ℕ) : ℤ :=
  match ws.reverse.find? (fun g => g.h_idx == h && g.w_idx == w) with
  | some g => if c = 0 then g.occ else if c = 1 then g.spd else 0
  | none => 0

/-- The observation returned by `get_state`, by output mode. -/
inductive Obs where
  | img (g : ℕ → ℕ → ℕ → ℕ)
  | vec (q : ℕ → ℕ)
  | comb (g : ℕ → ℕ → ℕ → ℕ)

/-- EnvTest.py lines 245-266: output-format dispatch of `get_state`.
`img` casts the grid to uint8; `comb` concatenates the grid with a
one-row queue channel (row 0 carries `queue_state`) and casts to uint8;
every other `obs_type` (in particular `vec`) returns `queue_state`
unchanged.  The returned scalar is `tot_queue_veh` (line 266) — the
commented-out line 265 returning `tot_person_delay` is inactive. -/
def get_state (obs_type : String) (cv_det : Bool) (snap : Snapshot) :
    Except String (Obs × ℕ) :=
  match get_state_core cv_det snap with
  | Except.error e => Except.error e
  | Except.ok c =>
    if obs_type = "img" then
      Except.ok (Obs.img (fun ch h w => uint8 (getCell c.writes ch h w)), c.tot_queue)
    else if obs_type = "comb" then
      Except.ok (Obs.comb (fun ch h w =>
        uint8 (if ch < n_channels then getCell c.writes ch h w
               else if h = 0 then (c.queue w : ℤ) else 0)), c.tot_queue)
    else
      Except.ok (Obs.vec c.queue, c.tot_queue)

/-- Environment configuration from `__init__` (EnvTest.py lines 49-81):
the output type and the cv-only flag; all durations come from the module
constants. -/
structure Config where
  obs_type : String
  cv_det : Bool
deriving DecidableEq

def defaultConfig : Config := ⟨"img", false⟩

/-- The per-episode mutable state of `SumoEnv` (EnvTest.py lines 90-94,
102-108, 114-146).  `last_tot_person_delay` stores the second component
returned by `get_state`, which is `tot_queue_veh`. -/
structure EnvState where
  done : Bool
  ep_reward : ℤ
  sim_step : ℕ
  ep_step : ℕ
  last_action : ℤ
  last_tot_person_delay : ℕ
  total_rewards : List ℤ
deriving DecidableEq

/-- EnvTest.py lines 100-111: `reset` for a fresh environment
(`total_rewards` starts `[]` as in `__init__`): warm up with 600 single
simulation steps, capture the baseline observation and metric at
`sim_step = 600`, and infer `last_action` by the loop of lines 104-108. -/
def infer_last_action (last_phase : String) : ℤ :=
  action_state_list.foldl (fun _ kv => if kv.2 = last_phase then kv.1 else 0) 0

/-- EnvTest.py lines 83-111: `reset`.  `snap` is what the simulator
reports at the end of warmup and `last_phase` is
`traci.trafficlight.getRedYellowGreenState('J1')` at that moment. -/
def reset (cfg : Config) (snap : Snapshot) (last_phase : String) :
    List SimCmd × Except String (EnvState × Obs) :=
  let warm := List.replicate 600 (SimCmd.advance 1)
  match get_state cfg.obs_type cfg.cv_det snap with
  | Except.error e => (warm, Except.error e)
  | Except.ok (obs, tot) =>
    (warm, Except.ok (⟨false, 0, 600, 0, infer_last_action last_phase, tot, []⟩, obs))

/-- What one `step` call returns (EnvTest.py line 148): observation,
reward, `terminated` (always `False`), `self.done`, the info dict's
`ep_step`, plus the updated environment state. -/
structure StepResult where
  obs : Obs
  reward : ℤ
  terminated : Bool
  done : Bool
  info_ep_step : ℕ
  env : EnvState

/-- EnvTest.py lines 126-148: the tail of `step` after the signal phase
has been handled: query `get_state`, compute the reward as the stored
metric minus the fresh one, update `last_action` and the stored metric,
accumulate `ep_reward`, and when `sim_step > 4400` set `done`, close the
simulator and archive `ep_reward` (`save_episode_stats`, line 311). -/
def after_phase (cfg : Config) (env : EnvState) (action : ℤ) (snap : Snapshot)
    (cmds : List SimCmd) (ticks : ℕ) : List SimCmd × Except String StepResult :=
  match get_state cfg.obs_type cfg.cv_det snap with
  | Except.error e => (cmds, Except.error e)
  | Except.ok (current_state, current_tot) =>
    let reward : ℤ := (env.last_tot_person_delay : ℤ) - (current_tot : ℤ)
    let sim1 := env.sim_step + ticks
    let ep_reward1 := env.ep_reward + reward
    let done1 := if 4400 < sim1 then true else env.done
    let env1 : EnvState :=
      ⟨done1, ep_reward1, sim1, env.ep_step + 1, action, current_tot,
       if 4400 < sim1 then env.total_rewards ++ [ep_reward1] else env.total_rewards⟩
    (if 4400 < sim1 then cmds ++ [SimCmd.close] else cmds,
     Except.ok ⟨current_state, reward, false, done1, env.ep_step + 1, env1⟩)

/-- EnvTest.py lines 119-122: the hold time `step` passes to `set_green`:
the through-movement minimum for actions 2 and 6, the left-turn minimum
otherwise. -/
def green_hold (action : ℤ) : ℕ :=
  if action = 2 ∨ action = 6 then min_through_green_time else min_left_green_time

/-- EnvTest.py lines 114-148: `step`.  When the action differs from
`last_action`, run the yellow/red clearance then hold the new green for
the through minimum (actions 2 and 6) or the left-turn minimum
(other actions); otherwise advance one tick.  A `KeyError` from the
phase-table lookup aborts before any simulator interaction or state
mutation. -/
def step (cfg : Config) (env : EnvState) (action : ℤ) (snap : Snapshot) :
    List SimCmd × Except String StepResult :=
  if action ≠ env.last_action then
    match set_yellow_red action env.last_action with
    | Except.error e => ([], Except.error e)
    | Except.ok (c1, t1) =>
      match set_green action (green_hold action) with
      | Except.error e => (c1, Except.error e)
      | Except.ok (c2, t2) => after_phase cfg env action snap (c1 ++ c2) (t1 + t2)
  else
    after_phase cfg env action snap [SimCmd.advance 1] 1

/-- Fold `step` over a list of (action, snapshot) decision calls,
keeping only the environment state. -/
def run (cfg : Config) (env : EnvState) (steps : List (ℤ × Snapshot)) :
    Except String EnvState :=
  steps.foldlM (fun e p =>
    match (step cfg e p.1 p.2).2 with
    | Except.ok r => Except.ok r.env
    | Except.error msg => Except.error msg) env

instance {ε α : Type} [DecidableEq ε] [DecidableEq α] : DecidableEq (Except ε α) :=
  fun x y =>
    match x, y with
    | Except.ok a, Except.ok b =>
      if h : a = b then Decidable.isTrue (congrArg Except.ok h)
      else Decidable.isFalse (fun hc => h (Except.ok.inj hc))
    | Except.error a, Except.error b =>
      if h : a = b then Decidable.isTrue (congrArg Except.error h)
      else Decidable.isFalse (fun hc => h (Except.error.inj hc))
    | Except.ok _, Except.error _ => Decidable.isFalse (fun hc => Except.noConfusion hc)
    | Except.error _, Except.ok _ => Decidable.isFalse (fun hc => Except.noConfusion hc)

/-- Does an `Except` hold a value? -/
def isOkE {α : Type} (e : Except String α) : Bool :=
  match e with
  | Except.ok _ => true
  | Except.error _ => false

def emptyEnv : EnvState := ⟨false, 0, 0, 0, 0, 0, []⟩

def outReward (e : Except String StepResult) : ℤ :=
  match e with
  | Except.ok r => r.reward
  | Except.error _ => 0

def outDone (e : Except String StepResult) : Bool :=
  match e with
  | Except.ok r => r.done
  | Except.error _ => false

def outEnv (e : Except String StepResult) : EnvState :=
  match e with
  | Except.ok r => r.env
  | Except.error _ => emptyEnv

def outObs (e : Except String StepResult) : Obs :=
  match e with
  | Except.ok r => r.obs
  | Except.error _ => Obs.vec fun _ => 0

def resetEnv (e : Except String (EnvState × Obs)) : EnvState :=
  match e with
  | Except.ok p => p.1
  | Except.error _ => emptyEnv

def envOr (e : Except String EnvState) : EnvState :=
  match e with
  | Except.ok v => v
  | Except.error _ => emptyEnv

def coreQ (e : Except String CoreResult) : ℕ :=
  match e with
  | Except.ok c => c.tot_queue
  | Except.error _ => 0

def coreDelaySum (e : Except String CoreResult) : ℤ :=
  match e with
  | Except.ok c => c.tot_person_delay
  | Except.error _ => 0

def coreWrites (e : Except String CoreResult) : List GridWrite :=
  match e with
  | Except.ok c => c.writes
  | Except.error _ => []

def coreQueueAt (e : Except String CoreResult) (w : ℕ) : ℕ :=
  match e with
  | Except.ok c => c.queue w
  | Except.error _ => 0

def obs_of (e : Except String (Obs × ℕ)) : Obs :=
  match e with
  | Except.ok p => p.1
  | Except.error _ => Obs.vec fun _ => 0

def gridAt (o : Obs) (c h w : ℕ) : ℕ :=
  match o with
  | Obs.img g => g c h w
  | Obs.comb g => g c h w
  | Obs.vec _ => 0

def vecAt (o : Obs) (w : ℕ) : ℕ :=
  match o with
  | Obs.vec q => q w
  | _ => 0

def isVecObs (o : Obs) : Bool :=
  match o with
  | Obs.vec _ => true
  | _ => false

def isImgObs (o : Obs) : Bool :=
  match o with
  | Obs.img _ => true
  | _ => false

def isCombObs (o : Obs) : Bool :=
  match o with
  | Obs.comb _ => true
  | _ => false

/-- The lane name whose halting count fills width index `w`. -/
def width_lane (w : ℕ) : String :=
  match edges.get? (w / 4) with
  | some e => e.2 ++ "_" ++ toString (w % 4)
  | none => ""

/-- A simulator report with no vehicles and no halted traffic. -/
def empty_snap : Snapshot := ⟨[], fun _ => 0⟩

/-- Warmup report for the reward counterexample: one car 400 m from the
signal (outside detection range) with 9 s of time loss, so the computed
`tot_person_delay` is 9 while `tot_queue_veh` is 0. -/
def c1_snap0 : Snapshot := ⟨[⟨"car", some 400, "E0_0", 0, 9⟩], fun _ => 0⟩

/-- Decision-step report for the reward counterexample: no vehicles
(`tot_person_delay` 0) but two halted vehicles on lane `-E2_0`
(`tot_queue_veh` 2). -/
def c1_snap1 : Snapshot := ⟨[], fun l => if l = "-E2_0" then 2 else 0⟩

/-- Environment after warming up on `c1_snap0` with the signal showing
action 7's phase string. -/
def c1_env0 : EnvState := resetEnv (reset defaultConfig c1_snap0 "gGGGgrrrrgrrrgrrrr").2

/-- Environment after warming up on an empty simulator report, signal
showing action 7's phase string. -/
def c2_env0 : EnvState := resetEnv (reset defaultConfig empty_snap "gGGGgrrrrgrrrgrrrr").2

/-- 224 decision calls alternating between actions 2 and 6, each over an
empty simulator report; every call changes the action, so each advances
3 + 2 + 12 = 17 ticks. -/
def c2_steps : List (ℤ × Snapshot) :=
  (List.range 224).map (fun i => (if i % 2 = 0 then 2 else 6, empty_snap))

/-- The episode state after running `c2_steps` from `c2_env0`. -/
def c2_final : Except String EnvState := run defaultConfig c2_env0 c2_steps

/-- A vehicle whose lane id has no underscore, so the tuple unpacking of
`split('_')` raises `ValueError`. -/
def c7_snap : Snapshot := ⟨[⟨"car", some 10, "nounderscore", 3, 5⟩], fun _ => 0⟩

/-- Loop state in which a previous vehicle left `ln_id = "E0"`,
`ln_idx = "1"` bound. -/
def c7_stale_state : LoopState := ⟨some (['E', '0'], ['1']), [], 0⟩

/-- A vehicle with an empty lane id, 10 m from the signal with 6 s of
time loss: lane parsing is skipped, so grid placement reuses the stale
loop variables. -/
def c7_stale_veh : Vehicle := ⟨"car", some 10, "", 4, 6⟩

/-- An in-detection-range vehicle (10 m) whose lane `Z9_0` splits fine
but matches none of the four approach edges. -/
def c8_veh : Vehicle := ⟨"car", some 10, "Z9_0", 3, 5⟩

/-- An in-detection-range vehicle (25 m) on lane `E0_2`. -/
def c8_good : Vehicle := ⟨"car", some 25, "E0_2", 3, 4⟩

/-- A simulator report with two halted vehicles on lane `-E2_0`, used to
show the `vec` observation is not normalized to [0, 1]. -/
def c9_snap : Snapshot := ⟨[], fun l => if l = "-E2_0" then 2 else 0⟩

/-- Environment state with a valid `last_action` for the invalid-action
witness. -/
def c10_env : EnvState := ⟨false, 0, 600, 0, 0, 0, []⟩

end SumoEnv

namespace SumoEnv

theorem yellow_chars_getD (o n : List Char) (i : ℕ)
    (ho : i < o.length) (hn : i < n.length) :
    (yellow_chars o n).getD i ' ' =
      if o.getD i ' ' = 'G' ∧ o.getD i ' ' ≠ n.getD i ' ' then 'Y' else o.getD i ' ' := by
  induction o generalizing n i with
  | nil => simp at ho
  | cons oh ot ih =>
    cases n with
    | nil => simp at hn
    | cons nh nt =>
      cases i with
      | zero => simp [yellow_chars]
      | succ j =>
        simp only [yellow_chars, List.getD_cons_succ]
        exact ih nt j (Nat.lt_of_succ_lt_succ ho) (Nat.lt_of_succ_lt_succ hn)

theorem red_chars_getD (ys : List Char) (i : ℕ) (hi : i < ys.length) :
    (red_chars ys).getD i ' ' =
      if ys.getD i ' ' = 'Y' then 'r' else ys.getD i ' ' := by
  induction ys generalizing i with
  | nil => simp at hi
  | cons h t ih =>
    cases i with
    | zero => simp [red_chars]
    | succ j =>
      simp only [red_chars, List.map_cons, List.getD_cons_succ]
      exact ih j (Nat.lt_of_succ_lt_succ hi)

theorem action_state_len (a : ℤ) (s : String)
    (h : action_state_map a = some s) : s.data.length = 18 := by
  unfold action_state_map at h
  have hmem : ∃ kv, kv ∈ action_state_list ∧ kv.2 = s := by
    rcases Option.map_eq_some'.mp h with ⟨kv, hfind, hsnd⟩
    exact ⟨kv, List.mem_of_find?_eq_some hfind, hsnd⟩
  rcases hmem with ⟨kv, hkv, rfl⟩
  simp only [action_state_list, List.mem_cons, List.not_mem_nil, or_false] at hkv
  rcases hkv with rfl | rfl | rfl | rfl | rfl | rfl | rfl | rfl <;> decide

theorem yellow_chars_length (o n : List Char) :
    (yellow_chars o n).length = min o.length n.length := by
  induction o generalizing n with
  | nil => simp [yellow_chars]
  | cons oh ot ih =>
    cases n with
    | nil => simp [yellow_chars]
    | cons nh nt =>
      simp only [yellow_chars, List.length_cons, ih, Nat.succ_min_succ]

theorem action_state_map_bounds (a : ℤ) (s : String)
    (h : action_state_map a = some s) : 0 ≤ a ∧ a ≤ 7 := by
  unfold action_state_map at h
  rcases Option.map_eq_some'.mp h with ⟨kv, hfind, _⟩
  have hmem := List.mem_of_find?_eq_some hfind
  have hbeq := List.find?_some hfind
  have hkv : kv.1 = a := beq_iff_eq.mp hbeq
  rw [← hkv]
  simp only [action_state_list, List.mem_cons, List.not_mem_nil, or_false] at hmem
  rcases hmem with rfl | rfl | rfl | rfl | rfl | rfl | rfl | rfl <;> simp

theorem action_state_map_eq_none (a : ℤ) (ha : a < 0 ∨ 7 < a) :
    action_state_map a = none := by
  cases hm : action_state_map a with
  | none => rfl
  | some s =>
    have hb := action_state_map_bounds a s hm
    rcases ha with ha | ha <;> omega

theorem get_state_ok_tot {o : String} {cv : Bool} {snap : Snapshot} {obs : Obs} {t : ℕ}
    (h : get_state o cv snap = Except.ok (obs, t)) :
    coreQ (get_state_core cv snap) = t := by
  unfold get_state at h
  cases hc : get_state_core cv snap with
  | error e => rw [hc] at h; exact absurd h (by simp)
  | ok c =>
    rw [hc] at h
    show c.tot_queue = t
    dsimp only at h
    repeat' split at h
    all_goals
      injection h with h1
      injection h1 with h2 h3

theorem get_state_isOk {o : String} {cv : Bool} {snap : Snapshot}
    (h : isOkE (get_state o cv snap) = true) :
    isOkE (get_state_core cv snap) = true := by
  unfold get_state at h
  cases hc : get_state_core cv snap with
  | error e => rw [hc] at h; simp [isOkE] at h
  | ok c => rfl

theorem place_on_edges_filter_nil (es : List (ℕ × String)) (hi : ℕ)
    (lid lidx : List Char) (occ spd : ℤ) (ws : List GridWrite)
    (hf : es.filter (fun e => contains_sub e.2.data lid) = []) :
    place_on_edges es hi lid lidx occ spd ws = Except.ok ws := by
  induction es generalizing ws with
  | nil => rfl
  | cons e t ih =>
    rw [List.filter_cons] at hf
    by_cases hc : contains_sub e.2.data lid
    · rw [if_pos hc] at hf; exact absurd hf (by simp)
    · rw [if_neg hc] at hf
      show (if contains_sub e.2.data lid then _ else _) = _
      rw [if_neg hc]
      exact ih ws hf

theorem after_phase_char (cfg : Config) (env : EnvState) (a : ℤ) (snap : Snapshot)
    (cmds : List SimCmd) (ticks : ℕ)
    (h : isOkE (after_phase cfg env a snap cmds ticks).2 = true) :
    outReward (after_phase cfg env a snap cmds ticks).2
        = (env.last_tot_person_delay : ℤ) - (coreQ (get_state_core cfg.cv_det snap) : ℤ)
    ∧ (outEnv (after_phase cfg env a snap cmds ticks).2).last_tot_person_delay
        = coreQ (get_state_core cfg.cv_det snap)
    ∧ (outEnv (after_phase cfg env a snap cmds ticks).2).sim_step = env.sim_step + ticks
    ∧ (outEnv (after_phase cfg env a snap cmds ticks).2).ep_step = env.ep_step + 1
    ∧ (outEnv (after_phase cfg env a snap cmds ticks).2).last_action = a
    ∧ (outEnv (after_phase cfg env a snap cmds ticks).2).ep_reward
        = env.ep_reward + outReward (after_phase cfg env a snap cmds ticks).2
    ∧ outDone (after_phase cfg env a snap cmds ticks).2
        = (decide (4400 < env.sim_step + ticks) || env.done)
    ∧ (4400 < env.sim_step + ticks →
        SimCmd.close ∈ (after_phase cfg env a snap cmds ticks).1
        ∧ (outEnv (after_phase cfg env a snap cmds ticks).2).total_rewards
            = env.total_rewards
              ++ [(outEnv (after_phase cfg env a snap cmds ticks).2).ep_reward])
    ∧ (¬ 4400 < env.sim_step + ticks →
        (after_phase cfg env a snap cmds ticks).1 = cmds
        ∧ (outEnv (after_phase cfg env a snap cmds ticks).2).total_rewards
            = env.total_rewards)
    ∧ cmds <+: (after_phase cfg env a snap cmds ticks).1 := by
  unfold after_phase at h ⊢
  cases hgs : get_state cfg.obs_type cfg.cv_det snap with
  | error e => rw [hgs] at h; simp [isOkE] at h
  | ok p =>
    obtain ⟨obs, tot⟩ := p
    have htot := get_state_ok_tot hgs
    rw [htot]
    dsimp only [outReward, outEnv, outDone] at h ⊢
    refine ⟨rfl, rfl, rfl, rfl, rfl, rfl, ?_, ?_, ?_, ?_⟩
    · by_cases hlt : 4400 < env.sim_step + ticks
      · simp only [if_pos hlt]
        simp [hlt]
      · simp only [if_neg hlt]
        simp [hlt]
    · intro hlt
      constructor
      · simp [hlt]
      · simp [hlt]
    · intro hlt
      constructor
      · simp [hlt]
      · simp [hlt]
    · by_cases hlt : 4400 < env.sim_step + ticks
      · simp only [if_pos hlt]
        exact List.prefix_append _ _
      · simp only [if_neg hlt]
        exact List.prefix_refl _

theorem step_eq_after (cfg : Config) (env : EnvState) (a : ℤ) (snap : Snapshot)
    (h : isOkE (step cfg env a snap).2 = true) :
    ∃ cmds0, step cfg env a snap = after_phase cfg env a snap cmds0
        (if a = env.last_action then 1 else yellow_time + red_time + green_hold a)
      ∧ (a = env.last_action → cmds0 = [SimCmd.advance 1])
      ∧ (a ≠ env.last_action → ∃ gs, action_state_map a = some gs ∧
          [SimCmd.setState gs, SimCmd.advance (green_hold a)] <:+: cmds0) := by
  by_cases heq : a = env.last_action
  · refine ⟨[SimCmd.advance 1], ?_, fun _ => rfl, fun hne => absurd heq hne⟩
    unfold step
    rw [if_neg (not_not_intro heq), if_pos heq]
  · cases hma : action_state_map a with
    | none =>
      exfalso
      unfold step set_yellow_red at h
      rw [if_pos heq, hma] at h
      simp [isOkE] at h
    | some gs =>
      cases hml : action_state_map env.last_action with
      | none =>
        exfalso
        unfold step set_yellow_red at h
        rw [if_pos heq, hma, hml] at h
        simp [isOkE] at h
      | some old =>
        refine ⟨[SimCmd.setState (String.mk (yellow_chars old.data gs.data)),
                 SimCmd.advance yellow_time,
                 SimCmd.setState (String.mk (red_chars (yellow_chars old.data gs.data))),
                 SimCmd.advance red_time]
                ++ [SimCmd.setState gs, SimCmd.advance (green_hold a)],
               ?_, fun hcon => absurd hcon heq, fun _ => ⟨gs, ?_, ?_⟩⟩
        · unfold step set_yellow_red set_green
          rw [if_pos heq, hma, hml, if_neg heq]
        · rfl
        · exact (List.suffix_append _ _).isInfix

theorem place_on_edges_filter_single (es : List (ℕ × String)) (hi : ℕ)
    (lid lidx : List Char) (occ spd : ℤ) (ws : List GridWrite)
    (off : ℕ) (estr : String) (k : ℤ)
    (hf : es.filter (fun e => contains_sub e.2.data lid) = [(off, estr)])
    (hk : parse_int? lidx = some k)
    (hw0 : 0 ≤ k + (off : ℤ)) (hw1 : k + (off : ℤ) < (grid_width : ℤ)) :
    place_on_edges es hi lid lidx occ spd ws =
      Except.ok (ws ++ [⟨hi, (k + (off : ℤ)).toNat, occ, spd⟩]) := by
  induction es generalizing ws with
  | nil => exact absurd hf (by simp)
  | cons e t ih =>
    rw [List.filter_cons] at hf
    by_cases hc : contains_sub e.2.data lid
    · rw [if_pos hc] at hf
      have he : e = (off, estr) := (List.cons_eq_cons.mp hf).1
      have ht : t.filter (fun e => contains_sub e.2.data lid) = [] :=
        (List.cons_eq_cons.mp hf).2
      subst he
      show (if contains_sub (off, estr).2.data lid then _ else _) = _
      rw [if_pos hc, hk]
      show (if 0 ≤ k + ((off : ℕ) : ℤ) ∧ k + ((off : ℕ) : ℤ) < (grid_width : ℤ) then _ else _) = _
      rw [if_pos ⟨hw0, hw1⟩]
      exact place_on_edges_filter_nil t hi lid lidx occ spd _ ht
    · rw [if_neg hc] at hf
      show (if contains_sub e.2.data lid then _ else _) = _
      rw [if_neg hc]
      exact ih ws hf

/-- C1 counterexample.  The claim says the step reward equals the previous
total person-delay minus the current one.  Warming up on `c1_snap0`
(person-delay 9, queue total 0) and stepping on `c1_snap1` (person-delay 0,
queue total 2) gives reward `0 - 2 = -2`, while the person-delay difference
is `9 - 0 = 9`: `get_state` computes `tot_person_delay` but returns
`tot_queue_veh` (EnvTest.py line 266), so the reward is a queue-count
difference, not a delay difference. -/
theorem C1_counterexample :
    outReward (step defaultConfig c1_env0 7 c1_snap1).2 = -2
    ∧ coreDelaySum (get_state_core false c1_snap0) = 9
    ∧ coreDelaySum (get_state_core false c1_snap1) = 0
    ∧ ((-2 : ℤ) ≠ 9 - 0)
    ∧ outReward (step defaultConfig c1_env0 7 c1_snap1).2 < 0 := by
  refine ⟨by decide, by decide, by decide, by decide, by decide⟩

/-- C1 amended: for every successful decision step, the reward equals the
previously stored metric minus the metric `get_state` returns for the
current snapshot — and that metric is `tot_queue_veh`, the total
halted-vehicle count, not the person delay.  The reward is positive
exactly when the queue total decreased, and the new state stores the
current queue total. -/
theorem C1_reward_queue_difference (cfg : Config) (env : EnvState) (a : ℤ)
    (snap : Snapshot) (h : isOkE (step cfg env a snap).2 = true) :
    outReward (step cfg env a snap).2
      = (env.last_tot_person_delay : ℤ) - (coreQ (get_state_core cfg.cv_det snap) : ℤ)
    ∧ (0 < outReward (step cfg env a snap).2
        ↔ coreQ (get_state_core cfg.cv_det snap) < env.last_tot_person_delay)
    ∧ (outEnv (step cfg env a snap).2).last_tot_person_delay
      = coreQ (get_state_core cfg.cv_det snap) := by
  obtain ⟨cmds0, hstep, -, -⟩ := step_eq_after cfg env a snap h
  rw [hstep] at h ⊢
  obtain ⟨h1, h2, -⟩ := after_phase_char cfg env a snap cmds0 _ h
  refine ⟨h1, ?_, h2⟩
  rw [h1]
  omega

/-- C1 witness: the amended theorem applied to the concrete step of the
counterexample. -/
theorem C1_witness :
    outReward (step defaultConfig c1_env0 7 c1_snap1).2
      = (c1_env0.last_tot_person_delay : ℤ)
        - (coreQ (get_state_core defaultConfig.cv_det c1_snap1) : ℤ) :=
  (C1_reward_queue_difference defaultConfig c1_env0 7 c1_snap1 (by decide)).1

set_option maxRecDepth 100000 in
/-- C2 counterexample.  `sim_step` counts the 600 warmup ticks as well, and
`step` sets `done` once `sim_step > 4400`.  Running 224 alternating 2/6
decisions (17 ticks each) from a fresh reset terminates the episode at
`sim_step = 4408`, i.e. after only 3808 post-warmup ticks — not more than
4400 as the claim requires; after 223 decisions (3791 post-warmup ticks)
the episode is still running, so the transition happens with at most 3808
post-warmup ticks. -/
theorem C2_counterexample :
    envOr c2_final = ⟨true, 0, 4408, 224, 6, 0, [0]⟩
    ∧ envOr (run defaultConfig c2_env0 (c2_steps.take 223))
        = ⟨false, 0, 4391, 223, 2, 0, []⟩
    ∧ 4408 - 600 ≤ 4400 := by
  refine ⟨by decide, by decide, by decide⟩

/-- C2 amended: each successful step advances `sim_step` (which already
includes the 600 warmup ticks: `reset` returns with `sim_step = 600` after
issuing exactly 600 single-tick advances) by 1 tick on a hold and by
`3 + 2 + green hold` on a transition, and sets `done` exactly when the
*total* tick count `sim_step` exceeds 4400 — i.e. when post-warmup ticks
exceed 3800, not 4400; on that termination the simulator is closed and
`ep_reward` is archived into `total_rewards`. -/
theorem C2_termination_threshold (cfg : Config) (env : EnvState) (a : ℤ)
    (snap : Snapshot) (h : isOkE (step cfg env a snap).2 = true) :
    (outEnv (step cfg env a snap).2).sim_step
      = env.sim_step + (if a = env.last_action then 1
          else yellow_time + red_time + green_hold a)
    ∧ outDone (step cfg env a snap).2
      = (decide (4400 < (outEnv (step cfg env a snap).2).sim_step) || env.done)
    ∧ (4400 < (outEnv (step cfg env a snap).2).sim_step →
        SimCmd.close ∈ (step cfg env a snap).1
        ∧ (outEnv (step cfg env a snap).2).total_rewards
          = env.total_rewards ++ [(outEnv (step cfg env a snap).2).ep_reward])
    ∧ (∀ (cfg2 : Config) (snap2 : Snapshot) (phase2 : String),
        (reset cfg2 snap2 phase2).1 = List.replicate 600 (SimCmd.advance 1)
        ∧ (isOkE (reset cfg2 snap2 phase2).2 = true →
            (resetEnv (reset cfg2 snap2 phase2).2).sim_step = 600)) := by
  obtain ⟨cmds0, hstep, -, -⟩ := step_eq_after cfg env a snap h
  rw [hstep] at h ⊢
  obtain ⟨-, -, h3, -, -, -, h7, h8, -, -⟩ := after_phase_char cfg env a snap cmds0 _ h
  refine ⟨h3, ?_, ?_, ?_⟩
  · rw [h7, h3]
  · intro hlt
    rw [h3] at hlt
    exact h8 hlt
  · intro cfg2 snap2 phase2
    constructor
    · unfold reset
      cases get_state cfg2.obs_type cfg2.cv_det snap2 <;> rfl
    · intro hr
      unfold reset at hr ⊢
      cases hg : get_state cfg2.obs_type cfg2.cv_det snap2 with
      | error e =>
        rw [hg] at hr
        simp [isOkE] at hr
      | ok p => rfl

/-- C2 witness: the amended theorem applied to a concrete transition step
after a fresh reset. -/
theorem C2_witness :
    (outEnv (step defaultConfig c2_env0 2 empty_snap).2).sim_step
      = c2_env0.sim_step + (if (2 : ℤ) = c2_env0.last_action then 1
          else yellow_time + red_time + green_hold 2) :=
  (C2_termination_threshold defaultConfig c2_env0 2 empty_snap (by decide)).1

/-- C3 counterexample.  The phase string of action 3 is in the table, yet
the inference loop of `reset` (lines 104-108) returns 0 for it, because
every later non-matching key overwrites `last_action` with the default 0. -/
theorem C3_counterexample :
    ((3 : ℤ), "grrrgGGGGgrrrgrrrr") ∈ action_state_list
    ∧ infer_last_action "grrrgGGGGgrrrgrrrr" = 0
    ∧ (0 : ℤ) ≠ 3 := by decide

/-- C3 amended: the loop overwrites its result on every iteration, so the
inferred last action is 7 when the simulator's signal string equals the
table entry of action 7 (the last key iterated), and 0 otherwise — even
when the string exactly matches the entry of one of the actions 0-6. -/
theorem C3_last_entry_only (last_phase : String) :
    infer_last_action last_phase
      = if ("gGGGgrrrrgrrrgrrrr" : String) = last_phase then 7 else 0 := rfl

/-- C4: for any two table phase strings (distinct actions) and any of the
18 positions, the yellow phase has `Y` exactly where the old phase has a
protected green `G` that differs from the new phase, and copies the old
phase's character elsewhere; in particular a permitted green `g` is never
replaced by `Y`. -/
theorem C4_yellow_phase (a b : ℤ) (oldS newS : String)
    (ha : action_state_map a = some oldS) (hb : action_state_map b = some newS)
    (_hab : a ≠ b) (i : ℕ) (hi : i < 18) :
    (yellow_chars oldS.data newS.data).getD i ' '
      = (if oldS.data.getD i ' ' = 'G' ∧ oldS.data.getD i ' ' ≠ newS.data.getD i ' '
         then 'Y' else oldS.data.getD i ' ')
    ∧ (oldS.data.getD i ' ' = 'g' →
        (yellow_chars oldS.data newS.data).getD i ' ' = 'g') := by
  have lo := action_state_len a oldS ha
  have ln := action_state_len b newS hb
  have h1 := yellow_chars_getD oldS.data newS.data i
    (by rw [lo]; exact hi) (by rw [ln]; exact hi)
  refine ⟨h1, fun hg => ?_⟩
  rw [h1, hg]
  simp

/-- C4 witness: the transition from action 3 to action 0 at position 5,
where the old phase shows `G` and the new phase differs, yields `Y`. -/
theorem C4_witness :
    ((3 : ℤ) ≠ 0)
    ∧ (yellow_chars ("grrrgGGGGgrrrgrrrr").data ("grrrgrrGGgrrrgrrGG").data).getD 5 ' '
        = (if ("grrrgGGGGgrrrgrrrr").data.getD 5 ' ' = 'G'
              ∧ ("grrrgGGGGgrrrgrrrr").data.getD 5 ' '
                  ≠ ("grrrgrrGGgrrrgrrGG").data.getD 5 ' '
           then 'Y' else ("grrrgGGGGgrrrgrrrr").data.getD 5 ' ') :=
  ⟨by decide,
   (C4_yellow_phase 3 0 "grrrgGGGGgrrrgrrrr" "grrrgrrGGgrrrgrrGG"
     (by decide) (by decide) (by decide) 5 (by decide)).1⟩

/-- C5: for every yellow phase produced during a transition between table
phases, the following red phase has `r` exactly where the yellow phase has
`Y` and copies the yellow phase's character elsewhere. -/
theorem C5_red_phase (a b : ℤ) (oldS newS : String)
    (ha : action_state_map a = some oldS) (hb : action_state_map b = some newS)
    (i : ℕ) (hi : i < 18) :
    (red_chars (yellow_chars oldS.data newS.data)).getD i ' '
      = if (yellow_chars oldS.data newS.data).getD i ' ' = 'Y' then 'r'
        else (yellow_chars oldS.data newS.data).getD i ' ' := by
  apply red_chars_getD
  rw [yellow_chars_length, action_state_len a oldS ha, action_state_len b newS hb]
  simpa using hi

/-- C5 witness: the red phase after the 3-to-0 transition at position 5,
where the yellow phase shows `Y`, yields `r`. -/
theorem C5_witness :
    (red_chars (yellow_chars ("grrrgGGGGgrrrgrrrr").data ("grrrgrrGGgrrrgrrGG").data)).getD 5 ' '
      = if (yellow_chars ("grrrgGGGGgrrrgrrrr").data ("grrrgrrGGgrrrgrrGG").data).getD 5 ' ' = 'Y'
        then 'r'
        else (yellow_chars ("grrrgGGGGgrrrgrrrr").data ("grrrgrrGGgrrrgrrGG").data).getD 5 ' ' :=
  C5_red_phase 3 0 "grrrgGGGGgrrrgrrrr" "grrrgrrGGgrrrgrrGG"
    (by decide) (by decide) 5 (by decide)

/-- C6: on every successful transition step, the new green phase string is
applied and held for `green_hold` ticks — the through minimum (12) for
actions 2 and 6, the left-turn minimum (5) otherwise.  The caller passes
exactly the requested minimum as `set_green`'s hold time, so the hold
equals `max(requestedMinimum, callerHoldTime)` (the two coincide), and the
claimed lower bounds follow. -/
theorem C6_green_hold (cfg : Config) (env : EnvState) (a : ℤ) (snap : Snapshot)
    (hne : a ≠ env.last_action) (h : isOkE (step cfg env a snap).2 = true) :
    ∃ gs, action_state_map a = some gs
      ∧ [SimCmd.setState gs, SimCmd.advance (green_hold a)] <:+: (step cfg env a snap).1
      ∧ green_hold a
          = max (if a = 2 ∨ a = 6 then min_through_green_time else min_left_green_time)
              (green_hold a)
      ∧ ((a = 2 ∨ a = 6) → 12 ≤ green_hold a)
      ∧ (¬(a = 2 ∨ a = 6) → 5 ≤ green_hold a) := by
  obtain ⟨cmds0, hstep, -, hex⟩ := step_eq_after cfg env a snap h
  obtain ⟨gs, hma, hinf⟩ := hex hne
  have h2 : isOkE (after_phase cfg env a snap cmds0
      (if a = env.last_action then 1 else yellow_time + red_time + green_hold a)).2 = true := by
    rw [← hstep]
    exact h
  have hpre : cmds0 <+: (step cfg env a snap).1 := by
    rw [hstep]
    exact (after_phase_char cfg env a snap cmds0 _ h2).2.2.2.2.2.2.2.2.2
  refine ⟨gs, hma, hinf.trans hpre.isInfix, ?_, ?_, ?_⟩
  · by_cases hc : a = 2 ∨ a = 6 <;> simp [green_hold, hc]
  · intro hc
    simp [green_hold, hc, min_through_green_time]
  · intro hc
    simp [green_hold, hc, min_left_green_time]

/-- C6 witness: the amended-free theorem applied to the concrete
transition from last action 7 to action 2 after a fresh reset. -/
theorem C6_witness :
    ∃ gs, action_state_map 2 = some gs
      ∧ [SimCmd.setState gs, SimCmd.advance (green_hold 2)]
          <:+: (step defaultConfig c2_env0 2 empty_snap).1
      ∧ green_hold 2
          = max (if (2 : ℤ) = 2 ∨ (2 : ℤ) = 6 then min_through_green_time
                 else min_left_green_time) (green_hold 2)
      ∧ (((2 : ℤ) = 2 ∨ (2 : ℤ) = 6) → 12 ≤ green_hold 2)
      ∧ (¬((2 : ℤ) = 2 ∨ (2 : ℤ) = 6) → 5 ≤ green_hold 2) :=
  C6_green_hold defaultConfig c2_env0 2 empty_snap (by decide) (by decide)

theorem parse_lane_err (prev : Option (List Char × List Char)) (lane_id : String)
    (hne : lane_id ≠ "") (hlen : (split_on_char '_' lane_id.data).length ≠ 2) :
    parse_lane prev lane_id = Except.error "ValueError: not enough values to unpack" := by
  unfold parse_lane
  rw [if_pos hne]
  rcases hsp : split_on_char '_' lane_id.data with - | ⟨x, xs⟩
  · rfl
  · cases xs with
    | nil => rfl
    | cons y ys =>
      cases ys with
      | nil =>
        rw [hsp] at hlen
        simp at hlen
      | cons z zs => rfl

theorem parse_lane_empty (prev : Option (List Char × List Char)) :
    parse_lane prev "" = Except.ok prev := rfl

/-- C7 counterexample.  A vehicle snapshot whose lane id cannot be split
into lane id and index makes the whole `get_state` call fail with the
unpacking `ValueError` — the encoder does *not* skip just that vehicle. -/
theorem C7_counterexample :
    get_state "img" false c7_snap = Except.error "ValueError: not enough values to unpack"
    ∧ (split_on_char '_' ("nounderscore").data).length = 1
    ∧ c7_snap.vehicles = [⟨"car", some 10, "nounderscore", 3, 5⟩] :=
  ⟨rfl, by decide, by decide⟩

/-- C7 amended.  (1) A nonempty lane id that does not split into exactly
two parts fails the whole encoder call (and that vehicle's delay is not
accrued).  (2) A *missing* (empty) lane id skips only the lane parsing:
the loop keeps the previous vehicle's lane fields, the vehicle's weighted
delay still accrues, and the vehicle stays out of the grid whenever it is
out of detection range — but (3) when it *is* in range it can be written
into the grid at the stale lane's cell, as the concrete instance shows
(`c7_stale_veh` has no lane id yet lands in the grid at the cell of the
previously parsed lane `E0_1`). -/
theorem C7_lane_handling :
    (∀ (s : LoopState) (v : Vehicle), v.lane_id ≠ "" →
        (split_on_char '_' v.lane_id.data).length ≠ 2 →
        vehicle_core "car" s v = Except.error "ValueError: not enough values to unpack")
    ∧ (∀ (s : LoopState) (v : Vehicle) (s2 : LoopState), v.lane_id = "" →
        vehicle_core "car" s v = Except.ok s2 →
        s2.lane = s.lane
        ∧ s2.tot_person_delay = s.tot_person_delay + veh_person_delay "car" v
        ∧ ((tls_dist v ≤ 0 ∨ (detection_length : ℤ) ≤ tls_dist v) →
            s2.writes = s.writes))
    ∧ (vehicle_core "car" c7_stale_state c7_stale_veh
          = Except.ok ⟨some (['E', '0'], ['1']), [⟨1, 9, 1, 4⟩], 6⟩
        ∧ c7_stale_veh.lane_id = ""
        ∧ c7_stale_state.writes ≠ [⟨1, 9, 1, 4⟩]) := by
  refine ⟨?_, ?_, by decide, by decide, by decide⟩
  · intro s v hne hlen
    unfold vehicle_core
    rw [parse_lane_err s.lane v.lane_id hne hlen]
  · intro s v s2 hempty hok
    unfold vehicle_core at hok
    rw [hempty, parse_lane_empty] at hok
    dsimp only at hok
    by_cases hr : 0 < tls_dist v ∧ tls_dist v < (detection_length : ℤ)
    · rw [if_pos hr] at hok
      cases hl : s.lane with
      | none =>
        rw [hl] at hok
        exact absurd hok (by simp)
      | some p =>
        obtain ⟨lid, lidx⟩ := p
        rw [hl] at hok
        dsimp only at hok
        cases hpl : place_on_edges edges ((tls_dist v / (cell_length : ℤ)).toNat) lid lidx
            (veh_occupancy "car" v) v.speed s.writes with
        | error e =>
          rw [hpl] at hok
          exact absurd hok (by simp)
        | ok ws =>
          rw [hpl] at hok
          injection hok with hok1
          refine ⟨?_, ?_, ?_⟩
          · rw [← hok1]
          · rw [← hok1]
          · intro hout
            exact absurd hr (by rcases hout with hout | hout <;> (intro hc; omega))
    · rw [if_neg hr] at hok
      injection hok with hok1
      exact ⟨by rw [← hok1], by rw [← hok1], fun _ => by rw [← hok1]⟩

/-- C7 witness: the amended theorem's failure branch applied to the
concrete unsplittable lane id. -/
theorem C7_witness :
    vehicle_core "car" initLoopState ⟨"car", some 10, "nounderscore", 3, 5⟩
      = Except.error "ValueError: not enough values to unpack" :=
  C7_lane_handling.1 initLoopState ⟨"car", some 10, "nounderscore", 3, 5⟩
    (by decide) (by decide)

/-- C8 counterexample.  A vehicle 10 m from the stop line (strictly inside
the 0 < d < 350 band) whose lane `Z9_0` matches none of the four approach
edges is *not* written into the grid, so "written iff 0 < d < 350" fails:
the code additionally requires the lane id to contain an approach edge id. -/
theorem C8_counterexample :
    (0 < (10 : ℤ) ∧ (10 : ℤ) < (detection_length : ℤ))
    ∧ tls_dist c8_veh = 10
    ∧ vehicle_core "car" initLoopState c8_veh
        = Except.ok ⟨some (['Z', '9'], ['0']), [], 5⟩
    ∧ coreWrites (get_state_core false ⟨[c8_veh], fun _ => 0⟩) = [] := by
  refine ⟨by decide, by decide, by decide, by decide⟩

/-- C8 amended: for a vehicle whose lane id splits into `lid` and a numeric
index `k`, and whose `lid` contains exactly one approach edge id (with the
resulting column in bounds), the vehicle is written into the grid *iff*
`0 < d < 350` (both bounds strict), at `heightIndex = ⌊d / 7⌋` and
`widthIndex = k + ` the matching approach's base offset; out of that band
nothing is written, and the weighted delay accrues either way. -/
theorem C8_grid_write (s : LoopState) (v : Vehicle) (lid lidx : List Char) (k : ℤ)
    (off : ℕ) (estr : String)
    (hsplit : split_on_char '_' v.lane_id.data = [lid, lidx])
    (hk : parse_int? lidx = some k)
    (hmatch : edges.filter (fun e => contains_sub e.2.data lid) = [(off, estr)])
    (hw0 : 0 ≤ k + (off : ℤ)) (hw1 : k + (off : ℤ) < (grid_width : ℤ)) :
    vehicle_core "car" s v = Except.ok
      ⟨some (lid, lidx),
       s.writes ++ (if 0 < tls_dist v ∧ tls_dist v < (detection_length : ℤ)
         then [⟨(tls_dist v / (cell_length : ℤ)).toNat, (k + (off : ℤ)).toNat,
               veh_occupancy "car" v, v.speed⟩]
         else []),
       s.tot_person_delay + veh_person_delay "car" v⟩ := by
  have hne : v.lane_id ≠ "" := by
    intro h0
    rw [h0] at hsplit
    have := congrArg List.length hsplit
    simp [split_on_char] at this
  have hpl : parse_lane s.lane v.lane_id = Except.ok (some (lid, lidx)) := by
    unfold parse_lane
    rw [if_pos hne, hsplit]
  unfold vehicle_core
  rw [hpl]
  dsimp only
  by_cases hr : 0 < tls_dist v ∧ tls_dist v < (detection_length : ℤ)
  · simp only [if_pos hr]
    rw [place_on_edges_filter_single edges ((tls_dist v / (cell_length : ℤ)).toNat)
      lid lidx (veh_occupancy "car" v) v.speed s.writes off estr k hmatch hk hw0 hw1]
  · simp only [if_neg hr, List.append_nil]

/-- C8 witness: the amended theorem applied to a car 25 m out on lane
`E0_2` — written at height bucket `⌊25/7⌋ = 3` and column `2 + 8 = 10`. -/
theorem C8_witness :
    vehicle_core "car" initLoopState c8_good = Except.ok
      ⟨some (['E', '0'], ['2']),
       initLoopState.writes
         ++ (if 0 < tls_dist c8_good ∧ tls_dist c8_good < (detection_length : ℤ)
           then [⟨(tls_dist c8_good / (cell_length : ℤ)).toNat, ((2 : ℤ) + ((8 : ℕ) : ℤ)).toNat,
                 veh_occupancy "car" c8_good, c8_good.speed⟩]
           else []),
       initLoopState.tot_person_delay + veh_person_delay "car" c8_good⟩ :=
  C8_grid_write initLoopState c8_good ['E', '0'] ['2'] 2 8 "E0"
    (by decide) (by decide) (by decide) (by decide) (by decide)

/-- C9 counterexample.  With two halted vehicles on lane `-E2_0`, the
`vec`-mode observation carries the raw count 2 at width index 0 — outside
[0, 1], so the vector output is *not* normalized (the `else` branch of
`get_state` returns `queue_state` unchanged). -/
theorem C9_counterexample :
    vecAt (obs_of (get_state "vec" false c9_snap)) 0 = 2 ∧ ¬(2 ≤ (1 : ℕ)) :=
  ⟨by decide, by decide⟩

/-- C9 amended: mode dispatch of the encoder output.  `img` returns only
the occupancy/speed grid, cast to 8-bit range; `comb` returns the grid
(channels below `n_channels` agree with `img`) concatenated with a one-row
queue channel (row 0 carries the uint8-cast queue vector, other rows are
zero), all values in 8-bit range; `vec` returns the *raw* per-lane
halting-count vector — not normalized to [0, 1]. -/
theorem C9_mode_dispatch (cv : Bool) (snap : Snapshot)
    (h : isOkE (get_state_core cv snap) = true) :
    isImgObs (obs_of (get_state "img" cv snap)) = true
    ∧ isVecObs (obs_of (get_state "vec" cv snap)) = true
    ∧ isCombObs (obs_of (get_state "comb" cv snap)) = true
    ∧ (∀ c h2 w, c < n_channels →
        gridAt (obs_of (get_state "comb" cv snap)) c h2 w
          = gridAt (obs_of (get_state "img" cv snap)) c h2 w)
    ∧ (∀ c h2 w, gridAt (obs_of (get_state "img" cv snap)) c h2 w
          = uint8 (getCell (coreWrites (get_state_core cv snap)) c h2 w))
    ∧ (∀ w, gridAt (obs_of (get_state "comb" cv snap)) n_channels 0 w
          = uint8 ((vecAt (obs_of (get_state "vec" cv snap)) w : ℤ)))
    ∧ (∀ h2 w, 0 < h2 →
        gridAt (obs_of (get_state "comb" cv snap)) n_channels h2 w = 0)
    ∧ (∀ c h2 w, gridAt (obs_of (get_state "img" cv snap)) c h2 w < 256
        ∧ gridAt (obs_of (get_state "comb" cv snap)) c h2 w < 256)
    ∧ (∀ w, vecAt (obs_of (get_state "vec" cv snap)) w
          = coreQueueAt (get_state_core cv snap) w)
    ∧ (∀ w, w < 16 →
        coreQueueAt (get_state_core cv snap) w = snap.halting (width_lane w)) := by
  unfold get_state
  cases hc : get_state_core cv snap with
  | error e =>
    rw [hc] at h
    simp [isOkE] at h
  | ok c =>
    have hq : c.queue = queue_fun snap.halting := by
      unfold get_state_core at hc
      cases hfold : snap.vehicles.foldlM (process_vehicle cv) initLoopState with
      | error e =>
        rw [hfold] at hc
        exact absurd hc (by simp)
      | ok s0 =>
        rw [hfold] at hc
        injection hc with hc1
        exact (congrArg CoreResult.queue hc1).symm
    dsimp only
    rw [if_neg (by decide : ¬("vec" : String) = "img"),
        if_neg (by decide : ¬("vec" : String) = "comb"),
        if_neg (by decide : ¬("comb" : String) = "img"),
        if_pos (rfl : ("comb" : String) = "comb"),
        if_pos (rfl : ("img" : String) = "img")]
    dsimp only [obs_of, gridAt, vecAt, isImgObs, isVecObs, isCombObs, coreWrites, coreQueueAt]
    refine ⟨rfl, rfl, rfl, ?_, fun c2 h2 w => rfl, ?_, ?_, ?_, fun w => rfl, ?_⟩
    · intro c2 h2 w hc2
      rw [if_pos hc2]
    · intro w
      rw [if_neg (lt_irrefl n_channels), if_pos rfl]
    · intro h2 w hh2
      rw [if_neg (lt_irrefl n_channels), if_neg (Nat.pos_iff_ne_zero.mp hh2)]
      rfl
    · intro c2 h2 w
      exact ⟨Nat.mod_lt _ (by norm_num), Nat.mod_lt _ (by norm_num)⟩
    · intro w hw
      rw [hq]
      interval_cases w <;> rfl

/-- C9 witness: the amended theorem's raw-queue-count conjunct applied at
the concrete snapshot with two halted vehicles, width index 0. -/
theorem C9_witness :
    vecAt (obs_of (get_state "vec" false c9_snap)) 0
      = coreQueueAt (get_state_core false c9_snap) 0 :=
  (C9_mode_dispatch false c9_snap (by decide)).2.2.2.2.2.2.2.2.1 0

/-- C10: a requested action outside [0, 7] (with the stored last action in
range, as every reachable episode state has) makes `step` fail with the
`KeyError` from the phase-table lookup before any simulator command is
issued — the command trace is empty, no signal state is applied, the
simulator is not advanced, and no successor environment state is
produced. -/
theorem C10_invalid_action (cfg : Config) (env : EnvState) (a : ℤ) (snap : Snapshot)
    (ha : a < 0 ∨ 7 < a) (hl : 0 ≤ env.last_action ∧ env.last_action ≤ 7) :
    step cfg env a snap = ([], Except.error "KeyError: action_state_map") := by
  have hne : a ≠ env.last_action := by rcases ha with ha | ha <;> omega
  have hma := action_state_map_eq_none a ha
  unfold step set_yellow_red
  rw [if_pos hne, hma]

/-- C10 witness: action 9 against a fresh environment whose last action
is 0. -/
theorem C10_witness :
    ((9 : ℤ) < 0 ∨ 7 < (9 : ℤ))
    ∧ step defaultConfig c10_env 9 empty_snap
        = ([], Except.error "KeyError: action_state_map") :=
  ⟨Or.inr (by decide),
   C10_invalid_action defaultConfig c10_env 9 empty_snap (Or.inr (by decide))
     ⟨by decide, by decide⟩⟩

end SumoEnv
